import Mathlib

/-!
Verification of the output-acquisition and verdict-classification engine of a
Playwright harness that drives a Singlish-to-Sinhala transliteration web page.

The embedding models:
- the three-tier output extractor `getSinhalaOutput` (script-range element scan,
  positional textarea fallback, whole-body regex fallback, exhausted -> "");
- the verdict classifier inside `runTest` (positive strict-equality mode,
  negative must-differ mode);
- the real-time update monitor loop of scenario `Pos_UI_0001` (per-keystroke
  sampling with an update counter) and its pass condition.

A page is modelled by the data the extractor reads through the browser
primitives: the text contents of page elements in document order, the current
values of the textarea controls in document order, and the full body text.
Each tier of the extractor runs inside a try/catch in the source; a thrown
error inside a tier is modelled by a per-tier error flag that forces the tier
to yield nothing.
-/

/-- Character class of the source regex `[඀-෿]` (the literal range
characters at line 20 of the source are U+0D80 and U+0DFF). A regex character
range matches a character exactly when its code point lies between the code
points of the two bounds. -/
def sinhalaLo : Char := '඀'

/-- Upper bound character of the source regex range, U+0DFF. -/
def sinhalaHi : Char := '෿'

/-- A character matches the Sinhala character class of the source regexes
when its code point lies in the closed range from `sinhalaLo` to `sinhalaHi`. -/
def isSinhala (c : Char) : Bool :=
  decide (sinhalaLo.toNat ≤ c.toNat) && decide (c.toNat ≤ sinhalaHi.toNat)

/-- ECMAScript `\s` (WhiteSpace plus LineTerminator): TAB, LF, VT, FF, CR,
SP, NBSP, ZWNBSP, the Unicode space separators, LS and PS. Used by the tier-3
regex `[඀-෿\s]+` and by `String.prototype.trim`. -/
def isJsWhitespace (c : Char) : Bool :=
  decide (c.toNat = 0x09) || decide (c.toNat = 0x0A) || decide (c.toNat = 0x0B) ||
  decide (c.toNat = 0x0C) || decide (c.toNat = 0x0D) || decide (c.toNat = 0x20) ||
  decide (c.toNat = 0xA0) || decide (c.toNat = 0x1680) ||
  (decide (0x2000 ≤ c.toNat) && decide (c.toNat ≤ 0x200A)) ||
  decide (c.toNat = 0x2028) || decide (c.toNat = 0x2029) ||
  decide (c.toNat = 0x202F) || decide (c.toNat = 0x205F) ||
  decide (c.toNat = 0x3000) || decide (c.toNat = 0xFEFF)

/-- Character class of the tier-3 regex `[඀-෿\s]`: a Sinhala-range
character or an ECMAScript whitespace character. -/
def tier3Class (c : Char) : Bool :=
  isSinhala c || isJsWhitespace c

/-- List form of `String.prototype.trim`: drop ECMAScript whitespace from both
ends. -/
def jsTrimList (cs : List Char) : List Char :=
  ((cs.dropWhile isJsWhitespace).reverse.dropWhile isJsWhitespace).reverse

/-- ECMAScript `String.prototype.trim`. -/
def jsTrim (s : String) : String :=
  String.mk (jsTrimList s.data)

/-- A string contains a match of `/[඀-෿]+/` exactly when it contains
at least one character of the class. -/
def containsSinhala (s : String) : Bool :=
  s.data.any isSinhala

/-- First match of `/[cl]+/` over a character list: the maximal run of
class characters starting at the first class character, if any. -/
def firstRun (cl : Char → Bool) : List Char → Option (List Char)
  | [] => none
  | c :: rest => if cl c then some (c :: rest.takeWhile cl) else firstRun cl rest

/-- State of one page as read by the extractor: text contents of the elements
in document order, current values of the textarea controls in document order,
the full body text, and one flag per extraction tier recording whether the
browser calls inside that tier's try block threw. -/
structure Page where
  elements : List String
  textareas : List String
  body : String
  tier1Err : Bool := false
  tier2Err : Bool := false
  tier3Err : Bool := false

/-- Tier 1 of `getSinhalaOutput` (source lines 19-24): collect all elements
whose text matches `/[඀-෿]+/`; if any exist, return the last one's
text content, trimmed. A thrown error is swallowed and yields nothing. -/
def tier1 (p : Page) : Option String :=
  if p.tier1Err then none
  else
    match (p.elements.filter containsSinhala).getLast? with
    | some t => some (jsTrim t)
    | none => none

/-- Tier 2 of `getSinhalaOutput` (source lines 26-31): collect all textareas;
if more than one exists, return the value of the one at index 1, trimmed.
A thrown error is swallowed and yields nothing. -/
def tier2 (p : Page) : Option String :=
  if p.tier2Err then none
  else
    match p.textareas[1]? with
    | some v => some (jsTrim v)
    | none => none

/-- Tier 3 of `getSinhalaOutput` (source lines 33-37): match the body text
against `/[඀-෿\s]+/` and, on a match, return the first match
trimmed. A thrown error is swallowed and yields nothing. -/
def tier3 (p : Page) : Option String :=
  if p.tier3Err then none
  else
    match firstRun tier3Class p.body.data with
    | some r => some (jsTrim (String.mk r))
    | none => none

/-- The output extractor `getSinhalaOutput` (source lines 18-40): ordered
fallback over the three tiers, returning the empty string when all tiers
yield nothing. -/
def getSinhalaOutput (p : Page) : String :=
  match tier1 p with
  | some v => v
  | none =>
    match tier2 p with
    | some v => v
    | none =>
      match tier3 p with
      | some v => v
      | none => ""

/-- Mode of a test case: positive (exact match expected) or negative
(the `isNegative = true` branch of `runTest`). -/
inductive Mode where
  | Positive : Mode
  | Negative : Mode
deriving DecidableEq

/-- A test case as supplied to `runTest`: identifier, input text, expected
output text, and mode. -/
structure TestCase where
  id : String
  input : String
  expectedOutput : String
  mode : Mode

/-- Verdict produced by the classification logic of `runTest` (source lines
58-72): `matched` is exact string equality of actual and expected output;
`passed` is `matched` in positive mode and `!matched` in negative mode. -/
structure Verdict where
  matched : Bool
  passed : Bool
deriving DecidableEq

/-- The verdict classifier of `runTest`: `matches = actualOutput ===
expectedOutput`; the PASS status is `matches` for a positive case and
`!matches` for a negative case. -/
def classify (tc : TestCase) (actualOutput : String) : Verdict :=
  let m : Bool := actualOutput == tc.expectedOutput
  { matched := m
    passed := match tc.mode with
      | Mode.Positive => m
      | Mode.Negative => !m }

/-- One iteration of the sampling loop of `Pos_UI_0001` (source lines
372-377): given the state `(previousOutput, outputUpdates)` and the newly
sampled output, increment the counter and update `previousOutput` exactly
when the sample differs from `previousOutput` and has positive length. -/
def monitorStep (st : String × Nat) (cur : String) : String × Nat :=
  if cur ≠ st.1 ∧ cur.length > 0 then (cur, st.2 + 1) else st

/-- The whole sampling loop of `Pos_UI_0001` (source lines 364-378): fold the
per-keystroke samples through `monitorStep`, starting from an empty
`previousOutput` and a zero counter. -/
def monitor (samples : List String) : String × Nat :=
  samples.foldl monitorStep ("", 0)

/-- Pass condition of `Pos_UI_0001` (source line 396): the scenario passes
exactly when the sampling loop counted at least one update and the final
output equals the expected output. -/
def uiTestPassed (samples : List String) (finalOutput expectedOutput : String) : Bool :=
  decide ((monitor samples).2 > 0) && (finalOutput == expectedOutput)

/-! Concrete pages and test cases used by witnesses and counterexamples. -/

/-- Positive scenario `Pos_Fun_0001` from the source. -/
def tcPos : TestCase :=
  ⟨"Pos_Fun_0001", "mama gedhara yanavaa.", "මම ගෙදර යනවා.", Mode.Positive⟩

/-- Negative scenario `Neg_Fun_0001` from the source. -/
def tcNeg : TestCase :=
  ⟨"Neg_Fun_0001", "", "No meaningful Sinhala output expected", Mode.Negative⟩

/-- A page on which every tier's browser calls throw. -/
def pageAllErr : Page :=
  { elements := ["ස"], textareas := ["a", "b"], body := "ස"
    tier1Err := true, tier2Err := true, tier3Err := true }

/-- A page with two Sinhala-bearing elements, used for the tier-1 witness. -/
def pageTier1 : Page :=
  { elements := ["hello", "අ x", " a ස "], textareas := ["x", "y"], body := "z" }

/-- A page with no Sinhala element text and two textareas, used for the
fallback-ordering witness. -/
def pageTier2 : Page :=
  { elements := ["latin only"], textareas := ["input", " out "], body := "x" }

/-- A page with no elements and two textareas, used for the positional
tier-2 witness. -/
def pageTier2b : Page :=
  { elements := [], textareas := ["abc", " res "], body := "" }

/-- A page whose body starts with a whitespace run that reaches the first
Sinhala character: the tier-3 first match is " ස", which trims to "ස". -/
def pageWsRun : Page :=
  { elements := [], textareas := [], body := " ස" }

/-- A page whose body has a non-class character between the leading
whitespace and the first Sinhala character: the tier-3 first match is the
pure-whitespace run " ", which trims to the empty string. -/
def pageWsGap : Page :=
  { elements := [], textareas := [], body := " a ස" }

/-- A nonempty string has positive length. -/
theorem string_ne_empty_iff_length_pos (s : String) : s ≠ "" ↔ 0 < s.length := by
  obtain ⟨d⟩ := s
  rw [Ne, String.ext_iff]
  show ¬d = [] ↔ 0 < d.length
  exact List.length_pos.symm

/-- Folding empty samples through the monitor never changes the state. -/
theorem monitor_foldl_replicate_empty (n : Nat) (c : Nat) :
    (List.replicate n "").foldl monitorStep ("", c) = ("", c) := by
  induction n generalizing c with
  | zero => rfl
  | succ k ih =>
    rw [List.replicate_succ, List.foldl_cons]
    have h : monitorStep ("", c) "" = ("", c) := by simp [monitorStep]
    rw [h]
    exact ih c

/-- C5: Positive-mode classification: for every Positive TestCase and every
actualOutput, the verdict has passed = true if and only if actualOutput is
character-for-character identical to expectedOutput, with no whitespace or
case normalization applied by the classifier. -/
theorem positive_classification (tc : TestCase) (actualOutput : String)
    (h : tc.mode = Mode.Positive) :
    ((classify tc actualOutput).passed = true ↔ actualOutput = tc.expectedOutput) ∧
    (classify tc actualOutput).matched = (actualOutput == tc.expectedOutput) := by
  unfold classify
  rw [h]
  simp

/-- Witness for C5: scenario `Pos_Fun_0001` passes on the exact expected
string. -/
theorem positive_classification_witness :
    (classify tcPos "මම ගෙදර යනවා.").passed = true :=
  (positive_classification tcPos "මම ගෙදර යනවා." rfl).1.mpr rfl

/-- C6: Negative-mode classification: for every Negative TestCase and every
actualOutput, passed = true if and only if actualOutput is not equal to
expectedOutput; consequently an empty actualOutput always yields passed = true
unless expectedOutput is also the empty string. -/
theorem negative_classification (tc : TestCase) (actualOutput : String)
    (h : tc.mode = Mode.Negative) :
    ((classify tc actualOutput).passed = true ↔ actualOutput ≠ tc.expectedOutput) ∧
    (actualOutput = "" →
      ((classify tc actualOutput).passed = true ↔ tc.expectedOutput ≠ "")) := by
  unfold classify
  rw [h]
  constructor
  · simp
  · intro he
    subst he
    simp [ne_comm]

/-- Witness for C6: scenario `Neg_Fun_0001` passes on empty actual output. -/
theorem negative_classification_witness :
    (classify tcNeg "").passed = true :=
  ((negative_classification tcNeg "" rfl).2 rfl).mpr (by decide)

/-- C7: Real-Time Update Monitor counting rule: updateCount is incremented
exactly when the newly sampled output differs from previousOutput and is
non-empty, and previousOutput is updated only on such increments; samples
going "" then "a-ish" then "ab-ish" yield updateCount = 2, and samples that
never change yield updateCount = 0. -/
theorem monitor_update_counting (prev : String) (cnt : Nat) (s : String) :
    ((monitorStep (prev, cnt) s).2 = cnt + 1 ↔ s ≠ prev ∧ s ≠ "") ∧
    (s ≠ prev ∧ s ≠ "" → monitorStep (prev, cnt) s = (s, cnt + 1)) ∧
    (¬(s ≠ prev ∧ s ≠ "") → monitorStep (prev, cnt) s = (prev, cnt)) ∧
    (monitor ["", "a-ish", "ab-ish"]).2 = 2 ∧
    (∀ n : Nat, (monitor (List.replicate n "")).2 = 0) := by
  have hstep : monitorStep (prev, cnt) s =
      if s ≠ prev ∧ s ≠ "" then (s, cnt + 1) else (prev, cnt) := by
    unfold monitorStep
    by_cases h : s ≠ prev ∧ s ≠ ""
    · rw [if_pos h, if_pos ⟨h.1, (string_ne_empty_iff_length_pos s).mp h.2⟩]
    · rw [if_neg h, if_neg (fun hx => h ⟨hx.1, (string_ne_empty_iff_length_pos s).mpr hx.2⟩)]
  refine ⟨?_, ?_, ?_, by decide, ?_⟩
  · rw [hstep]
    by_cases h : s ≠ prev ∧ s ≠ ""
    · rw [if_pos h]
      simp [h]
    · rw [if_neg h]
      constructor
      · intro habs
        simp at habs
      · intro hx
        exact absurd hx h
  · intro h
    rw [hstep, if_pos h]
  · intro h
    rw [hstep, if_neg h]
  · intro n
    unfold monitor
    rw [monitor_foldl_replicate_empty n 0]

/-- Witness for C7: the three-sample run from the spec example counts exactly
two updates. -/
theorem monitor_update_counting_witness :
    (monitor ["", "a-ish", "ab-ish"]).2 = 2 :=
  (monitor_update_counting "" 0 "").2.2.2.1

/-- C8: Real-Time Monitor pass condition is a conjunction: the UI scenario
passes if and only if updateCount > 0 AND finalOutput equals expectedOutput;
with updateCount = 0 the scenario fails even when finalOutput matches. -/
theorem ui_pass_condition (samples : List String) (finalOutput expectedOutput : String) :
    (uiTestPassed samples finalOutput expectedOutput = true ↔
      0 < (monitor samples).2 ∧ finalOutput = expectedOutput) ∧
    ((monitor samples).2 = 0 → uiTestPassed samples finalOutput expectedOutput = false) := by
  constructor
  · simp [uiTestPassed]
  · intro h
    simp [uiTestPassed, h]

/-- Witness for C8: a run with one Sinhala sample and matching final output
passes; the same final output with zero counted updates fails. -/
theorem ui_pass_condition_witness :
    uiTestPassed ["ස"] "ස" "ස" = true ∧ uiTestPassed [] "ස" "ස" = false :=
  ⟨(ui_pass_condition ["ස"] "ස" "ස").1.mpr ⟨by decide, rfl⟩,
   (ui_pass_condition [] "ස" "ස").2 rfl⟩

/-- Trimming a list of whitespace characters leaves nothing. -/
theorem jsTrimList_all_whitespace (cs : List Char)
    (h : ∀ c ∈ cs, isJsWhitespace c = true) : jsTrimList cs = [] := by
  unfold jsTrimList
  rw [List.dropWhile_eq_nil_iff.mpr h]
  simp

/-- C1: The Output Extractor is total: every tier whose browser calls throw
yields nothing, and when all three tiers yield nothing the extractor returns
the empty string; no error is ever propagated to the caller. -/
theorem extractor_total (p : Page) :
    (p.tier1Err = true → tier1 p = none) ∧
    (p.tier2Err = true → tier2 p = none) ∧
    (p.tier3Err = true → tier3 p = none) ∧
    (tier1 p = none → tier2 p = none → tier3 p = none → getSinhalaOutput p = "") := by
  refine ⟨?_, ?_, ?_, ?_⟩
  · intro h
    unfold tier1
    rw [if_pos h]
  · intro h
    unfold tier2
    rw [if_pos h]
  · intro h
    unfold tier3
    rw [if_pos h]
  · intro h1 h2 h3
    unfold getSinhalaOutput
    rw [h1, h2, h3]

/-- Witness for C1: a page whose every tier throws still yields the empty
string even though Sinhala text, two textareas and a Sinhala body exist. -/
theorem extractor_total_witness : getSinhalaOutput pageAllErr = "" :=
  (extractor_total pageAllErr).2.2.2 (by decide) (by decide) (by decide)

/-- C2: Tier 1 takes precedence: on every page where at least one element's
text matches the Sinhala-range pattern (and the tier-1 browser calls do not
throw), the extractor returns the trimmed text of the last matching element,
whatever the textareas, the body text, and the later tiers would contribute. -/
theorem tier1_precedence (p : Page) (h1 : p.tier1Err = false)
    (hm : p.elements.filter containsSinhala ≠ []) :
    getSinhalaOutput p = jsTrim ((p.elements.filter containsSinhala).getLast hm) ∧
    ∀ ta b e2 e3,
      getSinhalaOutput ⟨p.elements, ta, b, p.tier1Err, e2, e3⟩ =
        jsTrim ((p.elements.filter containsSinhala).getLast hm) := by
  have hmain : ∀ q : Page, q.elements = p.elements → q.tier1Err = false →
      getSinhalaOutput q = jsTrim ((p.elements.filter containsSinhala).getLast hm) := by
    intro q hqe hq1
    have ht : tier1 q = some (jsTrim ((p.elements.filter containsSinhala).getLast hm)) := by
      unfold tier1
      rw [if_neg (by simp [hq1]), hqe, List.getLast?_eq_getLast_of_ne_nil hm]
    unfold getSinhalaOutput
    rw [ht]
  refine ⟨hmain p rfl h1, ?_⟩
  intro ta b e2 e3
  exact hmain ⟨p.elements, ta, b, p.tier1Err, e2, e3⟩ rfl h1

/-- Witness for C2: of three elements the two Sinhala-bearing ones are kept
and the last one's trimmed text is returned. -/
theorem tier1_precedence_witness : getSinhalaOutput pageTier1 = "a ස" := by
  have h := (tier1_precedence pageTier1 rfl (by decide)).1
  rw [h]
  decide

/-- C3: The fallback chain is strictly ordered: a tier-1 result is returned
directly; with tier 1 empty a tier-2 result is returned whatever the body and
the tier-3 outcome; with tiers 1 and 2 empty the result is exactly what tier 3
yields (empty string when tier 3 also yields nothing). -/
theorem fallback_chain_order (p : Page) (v : String) :
    (tier1 p = some v → getSinhalaOutput p = v) ∧
    (tier1 p = none → tier2 p = some v →
      getSinhalaOutput p = v ∧
      ∀ b e3, getSinhalaOutput ⟨p.elements, p.textareas, b, p.tier1Err, p.tier2Err, e3⟩ = v) ∧
    (tier1 p = none → tier2 p = none → getSinhalaOutput p = (tier3 p).getD "") := by
  refine ⟨?_, ?_, ?_⟩
  · intro h1
    unfold getSinhalaOutput
    rw [h1]
  · intro h1 h2
    constructor
    · unfold getSinhalaOutput
      rw [h1, h2]
    · intro b e3
      have e1 : tier1 ⟨p.elements, p.textareas, b, p.tier1Err, p.tier2Err, e3⟩ = tier1 p := rfl
      have e2 : tier2 ⟨p.elements, p.textareas, b, p.tier1Err, p.tier2Err, e3⟩ = tier2 p := rfl
      unfold getSinhalaOutput
      rw [e1, e2, h1, h2]
  · intro h1 h2
    unfold getSinhalaOutput
    rw [h1, h2]
    cases h3 : tier3 p <;> simp [Option.getD]

/-- Witness for C3: with no Sinhala element text, the second textarea's
trimmed value is returned and the body is never consulted. -/
theorem fallback_chain_order_witness : getSinhalaOutput pageTier2 = "out" :=
  (((fallback_chain_order pageTier2 "out").2.1 (by decide) (by decide)).1)

/-- C4: Tier 2 of extract: when tier 1 finds nothing, the tier-2 browser
calls do not throw, and the page has at least two textareas, the extractor
returns the trimmed current value of the textarea at zero-based index 1. -/
theorem tier2_positional (p : Page) (h1 : tier1 p = none) (he : p.tier2Err = false)
    (h2 : 1 < p.textareas.length) :
    getSinhalaOutput p = jsTrim (p.textareas.get ⟨1, h2⟩) := by
  have ht : tier2 p = some (jsTrim (p.textareas.get ⟨1, h2⟩)) := by
    unfold tier2
    rw [if_neg (by simp [he]), List.getElem?_eq_getElem h2]
    rfl
  unfold getSinhalaOutput
  rw [h1, ht]

/-- Witness for C4: a page with textareas ["abc", " res "] and no Sinhala
element text yields the trimmed second value "res". -/
theorem tier2_positional_witness : getSinhalaOutput pageTier2b = "res" := by
  have h := tier2_positional pageTier2b (by decide) rfl (by decide)
  rw [h]
  decide

/-- C9: The source Sinhala character class accepts exactly the code points
in the closed range U+0D80 through U+0DFF, and the tier-3 class additionally
accepts exactly the ECMAScript whitespace characters. -/
theorem sinhala_pattern_range (c : Char) :
    (isSinhala c = true ↔ 0xD80 ≤ c.toNat ∧ c.toNat ≤ 0xDFF) ∧
    (tier3Class c = true ↔ (0xD80 ≤ c.toNat ∧ c.toNat ≤ 0xDFF) ∨ isJsWhitespace c = true) := by
  have hlo : sinhalaLo.toNat = 0xD80 := rfl
  have hhi : sinhalaHi.toNat = 0xDFF := rfl
  constructor
  · unfold isSinhala
    rw [hlo, hhi]
    simp
  · unfold tier3Class isSinhala
    rw [hlo, hhi]
    simp

/-- Witness for C9: the letter ස (U+0DC3) is accepted by the class. -/
theorem sinhala_pattern_range_witness : isSinhala 'ස' = true :=
  (sinhala_pattern_range 'ස').1.mpr (by decide)

/-- Counterexample for C10: in the body " ස" a whitespace character
precedes the first Sinhala-range character and tiers 1 and 2 find nothing,
yet the extractor returns "ස", not the empty string: the tier-3 first match
" ස" includes the Sinhala character, so trimming leaves it. -/
theorem tier3_whitespace_counterexample :
    pageWsRun.body.data = [' ', 'ස'] ∧
    isJsWhitespace ' ' = true ∧ isSinhala ' ' = false ∧ isSinhala 'ස' = true ∧
    tier1 pageWsRun = none ∧ tier2 pageWsRun = none ∧ pageWsRun.tier3Err = false ∧
    getSinhalaOutput pageWsRun = "ස" ∧ getSinhalaOutput pageWsRun ≠ "" := by
  refine ⟨by decide, by decide, by decide, by decide, by decide, by decide, rfl,
    by decide, by decide⟩

/-- C10 amended: when tiers 1 and 2 find nothing, the tier-3 browser calls do
not throw, and the first run of tier-3 class characters in the body consists
purely of whitespace (a non-class character separates it from the Sinhala text
occurring later in the body), the extractor returns the empty string, not that
later Sinhala text. -/
theorem tier3_whitespace_first_run (p : Page) (r : List Char)
    (h1 : tier1 p = none) (h2 : tier2 p = none) (he : p.tier3Err = false)
    (hw : firstRun tier3Class p.body.data = some r)
    (hr : ∀ c ∈ r, isJsWhitespace c = true)
    (_hs : ∃ c ∈ p.body.data, isSinhala c = true) :
    getSinhalaOutput p = "" := by
  have htrim : jsTrim (String.mk r) = "" := by
    unfold jsTrim
    rw [show (String.mk r).data = r from rfl, jsTrimList_all_whitespace r hr]
  have ht : tier3 p = some "" := by
    unfold tier3
    rw [if_neg (by simp [he]), hw]
    show some (jsTrim (String.mk r)) = some ""
    rw [htrim]
  unfold getSinhalaOutput
  rw [h1, h2, ht]

/-- Witness for the amended C10: on a body " a ස" the first class run is the
single leading space, so the extractor returns "" while Sinhala text exists
later in the body. -/
theorem tier3_whitespace_first_run_witness : getSinhalaOutput pageWsGap = "" :=
  tier3_whitespace_first_run pageWsGap [' '] (by decide) (by decide) rfl
    (by decide) (by decide) (by decide)
